import Mathlib

/-!
Verification of the data model in `src/api/app/models/chat.py`
(Pydantic models `Prompt`, `MessageType`, `Message`, `Code`, `Chat`,
`Response` for a chat application that generates HTML/CSS/JS code).

Shallow embedding:
* Constructor inputs are keyword-argument maps `List (String × Val)`,
  where `Val` is a JSON-like value universe extended with already-built
  model instances (Pydantic accepts model instances for model-typed
  fields).
* Pydantic construction/validation of each model is a total Lean
  function returning `Except (List FieldError) M`; Pydantic collects
  one structured error per failing field, each carrying a location
  (field name) and an error kind string.
* The side-effecting default factories are explicit parameters:
  `uuid4().hex` for `Message.id` takes the 128-bit random draw
  `r : Nat` as input (the version/variant bit-setting of `uuid.UUID`
  with `version=4` is modelled faithfully), and `datetime.now()` for
  `Chat.createdAt` takes the current instant `now : Nat`
  (microsecond-precision timestamps are abstracted as `Nat`; their
  ISO-8601 textual form round-trips exactly, so serialization keeps
  the abstract timestamp in a dedicated `Val.dt` constructor).
-/

namespace ChatModel

/-- The two-variant string enum `MessageType` (`AI = "ai"`, `USER = "user"`). -/
inductive MessageType where
  | AI
  | USER
deriving DecidableEq, Repr

/-- The `Message` model: `id : str` (default `uuid4().hex`),
`type : MessageType` (default `USER`), `content : str` (default `""`). -/
structure Message where
  id : String
  type : MessageType
  content : String
deriving DecidableEq, Repr

/-- The `Code` model: `html`, `css`, `js`, all `str` with default `""`. -/
structure Code where
  html : String
  css : String
  js : String
deriving DecidableEq, Repr

/-- The `Chat` model: required `userId : str`, `messages : List[Message]`
(default `[]`), `name : str` (default `"New Chat"`), `code : Code`
(default `Code()`), `createdAt : datetime` (default `datetime.now()`,
abstracted as `Nat`). -/
structure Chat where
  userId : String
  messages : List Message
  name : String
  code : Code
  createdAt : Nat
deriving DecidableEq, Repr

/-- The `Response` model, which inherits `html`, `css`, `js` from `Code`
and adds `explanation : str` (default `""`). -/
structure Response where
  html : String
  css : String
  js : String
  explanation : String
deriving DecidableEq, Repr

/-- The `Prompt` model: a single required field `input : str`. -/
structure Prompt where
  input : String
deriving DecidableEq, Repr

/-- JSON-like input/output values for Pydantic construction and
serialization.  `dt` is an abstract microsecond timestamp (standing for
a `datetime` object or its exactly round-tripping ISO-8601 string);
`msg` and `code` are already-constructed model instances, which
Pydantic accepts for model-typed fields. -/
inductive Val where
  | str (s : String)
  | nat (n : Nat)
  | vnull
  | dt (t : Nat)
  | list (xs : List Val)
  | obj (fields : List (String × Val))
  | msg (m : Message)
  | code (c : Code)

/-- One structured Pydantic validation error: the field location and the
error-kind tag (for example `missing`, `string_type`, `enum`,
`model_type`, `datetime_type`, `list_type`). -/
structure FieldError where
  loc : List String
  kind : String
deriving DecidableEq, Repr

/-- Keyword-argument lookup. -/
def getField (fs : List (String × Val)) (k : String) : Option Val :=
  (fs.find? (fun p => p.1 == k)).map (fun p => p.2)

/-- The error list of a field result (empty when the field validated). -/
def errsOf {α : Type} : Except (List FieldError) α → List FieldError
  | .ok _ => []
  | .error e => e

/-! ## `uuid4().hex`: 32 lowercase hexadecimal characters -/

/-- Lowercase hexadecimal digit character for `d < 16`. -/
def hexDigit (d : Nat) : Char :=
  if d < 10 then Char.ofNat (48 + d) else Char.ofNat (87 + d)

/-- The `width` most significant base-16 digits of `n`
(most-significant first), as `%0<width>x` prints `n < 16 ^ width`. -/
def hexChars : Nat → Nat → List Char
  | 0, _ => []
  | w + 1, n => hexDigit (n / 16 ^ w % 16) :: hexChars w (n % 16 ^ w)

/-- `uuid.UUID(bytes=r, version=4).int`: clamp the 128 random bits, set
the RFC 4122 variant bits and the version-4 bits, exactly as
`uuid.UUID.__init__` does. -/
def setVersion4 (r : Nat) : Nat :=
  let n := r % 2 ^ 128
  let n := Nat.lor (Nat.land n (2 ^ 128 - 1 - (0xc000 <<< 48))) (0x8000 <<< 48)
  Nat.lor (Nat.land n (2 ^ 128 - 1 - (0xf000 <<< 64))) (4 <<< 76)

/-- `uuid4().hex` on the random draw `r`: the 32-character lowercase
hexadecimal rendering of the 128-bit UUID integer. -/
def uuid4hex (r : Nat) : String :=
  ⟨hexChars 32 (setVersion4 r)⟩

/-! ## Field validators (Pydantic v2 lax-mode semantics) -/

/-- Validate a `str` field with default `dflt` when the key is absent;
a present non-string value is a `string_type` error. -/
def strFieldD (fs : List (String × Val)) (k : String) (dflt : String) :
    Except (List FieldError) String :=
  match getField fs k with
  | none => .ok dflt
  | some (.str s) => .ok s
  | some _ => .error [⟨[k], "string_type"⟩]

/-- Validate a required `str` field: absence is a `missing` error. -/
def reqStrField (fs : List (String × Val)) (k : String) :
    Except (List FieldError) String :=
  match getField fs k with
  | none => .error [⟨[k], "missing"⟩]
  | some (.str s) => .ok s
  | some _ => .error [⟨[k], "string_type"⟩]

/-- Validate a `MessageType` value: the member itself or its string
value; anything else is an `enum` error. -/
def validateMessageType (v : Val) : Except (List FieldError) MessageType :=
  match v with
  | .str s =>
    if s = "ai" then .ok .AI
    else if s = "user" then .ok .USER
    else .error [⟨["type"], "enum"⟩]
  | _ => .error [⟨["type"], "enum"⟩]

/-- Combine three field results into a `Message` (Pydantic reports the
errors of every failing field). -/
def mk3 (a b : Except (List FieldError) String)
    (t : Except (List FieldError) MessageType) :
    Except (List FieldError) Message :=
  match a, t, b with
  | .ok i, .ok ty, .ok c => .ok ⟨i, ty, c⟩
  | a, t, b => .error (errsOf a ++ errsOf t ++ errsOf b)

/-- Validate the `type` field (`MessageType`, default `USER`). -/
def typeFieldD (fs : List (String × Val)) :
    Except (List FieldError) MessageType :=
  match getField fs "type" with
  | none => .ok .USER
  | some v => validateMessageType v

/-- `Message(**fs)` where `r` is the 128-bit random draw consumed by the
`id` default factory `uuid4().hex` when `id` is omitted. -/
def Message.validate (r : Nat) (fs : List (String × Val)) :
    Except (List FieldError) Message :=
  mk3 (strFieldD fs "id" (uuid4hex r)) (strFieldD fs "content" "")
    (typeFieldD fs)

/-- Combine three field results into a `Code`. -/
def mkCode (h c j : Except (List FieldError) String) :
    Except (List FieldError) Code :=
  match h, c, j with
  | .ok hv, .ok cv, .ok jv => .ok ⟨hv, cv, jv⟩
  | h, c, j => .error (errsOf h ++ errsOf c ++ errsOf j)

/-- `Code(**fs)`: three optional `str` fields defaulting to `""`. -/
def Code.validate (fs : List (String × Val)) : Except (List FieldError) Code :=
  mkCode (strFieldD fs "html" "") (strFieldD fs "css" "") (strFieldD fs "js" "")

/-- Combine four field results into a `Response`. -/
def mkResponse (h c j e : Except (List FieldError) String) :
    Except (List FieldError) Response :=
  match h, c, j, e with
  | .ok hv, .ok cv, .ok jv, .ok ev => .ok ⟨hv, cv, jv, ev⟩
  | h, c, j, e => .error (errsOf h ++ errsOf c ++ errsOf j ++ errsOf e)

/-- `Response(**fs)`: the three inherited `Code` fields plus
`explanation`, all optional `str` defaulting to `""`. -/
def Response.validate (fs : List (String × Val)) :
    Except (List FieldError) Response :=
  mkResponse (strFieldD fs "html" "") (strFieldD fs "css" "")
    (strFieldD fs "js" "") (strFieldD fs "explanation" "")

/-- `Prompt(**fs)`: one required `str` field `input`. -/
def Prompt.validate (fs : List (String × Val)) :
    Except (List FieldError) Prompt :=
  match reqStrField fs "input" with
  | .ok s => .ok ⟨s⟩
  | .error e => .error e

/-- Validate one element of `Chat.messages`: a `Message` instance passes
through; a mapping is validated as `Message(**...)` with `r` feeding its
`id` default factory; anything else is a `model_type` error. -/
def validateMsgElem (r : Nat) (v : Val) : Except (List FieldError) Message :=
  match v with
  | .msg m => .ok m
  | .obj fs => Message.validate r fs
  | _ => .error [⟨["messages"], "model_type"⟩]

/-- Validate the elements of a supplied `messages` list, feeding the
`i`-th element the random draw `rs i`. -/
def validateMsgList (rs : Nat → Nat) : Nat → List Val →
    Except (List FieldError) (List Message)
  | _, [] => .ok []
  | i, v :: vs =>
    match validateMsgElem (rs i) v, validateMsgList rs (i + 1) vs with
    | .ok m, .ok ms => .ok (m :: ms)
    | a, b => .error (errsOf a ++ errsOf b)

/-- Validate the `messages` field (`List[Message]`, default `[]`). -/
def messagesField (rs : Nat → Nat) (fs : List (String × Val)) :
    Except (List FieldError) (List Message) :=
  match getField fs "messages" with
  | none => .ok []
  | some (.list xs) => validateMsgList rs 0 xs
  | some _ => .error [⟨["messages"], "list_type"⟩]

/-- Validate the `code` field (`Code`, default `Code()`): a `Code`
instance or a mapping; `None` or any other value is a `model_type`
error. -/
def codeField (fs : List (String × Val)) : Except (List FieldError) Code :=
  match getField fs "code" with
  | none => .ok ⟨"", "", ""⟩
  | some (.code c) => .ok c
  | some (.obj gs) => Code.validate gs
  | some _ => .error [⟨["code"], "model_type"⟩]

/-- Validate the `createdAt` field (`datetime`, default
`datetime.now()`, here the explicit instant `now`). -/
def createdAtField (now : Nat) (fs : List (String × Val)) :
    Except (List FieldError) Nat :=
  match getField fs "createdAt" with
  | none => .ok now
  | some (.dt t) => .ok t
  | some _ => .error [⟨["createdAt"], "datetime_type"⟩]

/-- Combine five field results into a `Chat`. -/
def mk5 (u : Except (List FieldError) String)
    (m : Except (List FieldError) (List Message))
    (n : Except (List FieldError) String)
    (c : Except (List FieldError) Code)
    (t : Except (List FieldError) Nat) : Except (List FieldError) Chat :=
  match u, m, n, c, t with
  | .ok uv, .ok mv, .ok nv, .ok cv, .ok tv => .ok ⟨uv, mv, nv, cv, tv⟩
  | u, m, n, c, t =>
    .error (errsOf u ++ errsOf m ++ errsOf n ++ errsOf c ++ errsOf t)

/-- `Chat(**fs)` where `now` is the instant consumed by the `createdAt`
default factory `datetime.now` and `rs` supplies random draws to any
mapping elements of `messages` that omit their `id`. -/
def Chat.validate (now : Nat) (rs : Nat → Nat) (fs : List (String × Val)) :
    Except (List FieldError) Chat :=
  mk5 (reqStrField fs "userId") (messagesField rs fs)
    (strFieldD fs "name" "New Chat") (codeField fs) (createdAtField now fs)

/-! ## Serialization (`model_dump`, JSON mode) -/

/-- `MessageType` serializes as its string value. -/
def MessageType.serialize : MessageType → Val
  | .AI => .str "ai"
  | .USER => .str "user"

/-- `Message` field dump. -/
def Message.dump (m : Message) : List (String × Val) :=
  [("id", .str m.id), ("type", m.type.serialize), ("content", .str m.content)]

/-- `Code` field dump. -/
def Code.dump (c : Code) : List (String × Val) :=
  [("html", .str c.html), ("css", .str c.css), ("js", .str c.js)]

/-- `Chat` field dump. -/
def Chat.dump (c : Chat) : List (String × Val) :=
  [("userId", .str c.userId),
   ("messages", .list (c.messages.map (fun m => .obj m.dump))),
   ("name", .str c.name),
   ("code", .obj c.code.dump),
   ("createdAt", .dt c.createdAt)]

/-- `Response` field dump. -/
def Response.dump (r : Response) : List (String × Val) :=
  [("html", .str r.html), ("css", .str r.css), ("js", .str r.js),
   ("explanation", .str r.explanation)]

/-- `Prompt` field dump. -/
def Prompt.dump (p : Prompt) : List (String × Val) :=
  [("input", .str p.input)]

/-- Projection of a `Response` onto the `Code` capability set it
inherits (the shared `html`, `css`, `js` fields). -/
def Response.toCode (r : Response) : Code :=
  ⟨r.html, r.css, r.js⟩

/-- The lowercase hexadecimal alphabet. -/
def isHexChar (c : Char) : Bool :=
  "0123456789abcdef".data.contains c

/-- A keyword argument that is either supplied (`some s`, passed as a
string) or left out entirely (`none`). -/
def optEntry (k : String) : Option String → List (String × Val)
  | none => []
  | some s => [(k, .str s)]

/-! ## Facts about the modelled `uuid4().hex` -/

theorem hexChars_length (w : Nat) : ∀ n, (hexChars w n).length = w := by
  induction w with
  | zero => intro n; rfl
  | succ w ih => intro n; simp [hexChars, ih]

theorem isHexChar_hexDigit (d : Nat) (h : d < 16) :
    isHexChar (hexDigit d) = true := by
  have key : ∀ x : Fin 16, isHexChar (hexDigit x.val) = true := by decide
  exact key ⟨d, h⟩

theorem hexChars_all_hex (w : Nat) :
    ∀ n, ∀ c ∈ hexChars w n, isHexChar c = true := by
  induction w with
  | zero => intro n c hc; simp [hexChars] at hc
  | succ w ih =>
    intro n c hc
    simp only [hexChars, List.mem_cons] at hc
    rcases hc with rfl | hc
    · exact isHexChar_hexDigit _ (Nat.mod_lt _ (by decide))
    · exact ih _ c hc

theorem hexDigit_inj {a b : Nat} (ha : a < 16) (hb : b < 16)
    (h : hexDigit a = hexDigit b) : a = b := by
  have key : ∀ x y : Fin 16, hexDigit x.val = hexDigit y.val → x = y := by
    decide
  have := key ⟨a, ha⟩ ⟨b, hb⟩ h
  exact congrArg Fin.val this

theorem hexChars_inj (w : Nat) : ∀ a b, a < 16 ^ w → b < 16 ^ w →
    hexChars w a = hexChars w b → a = b := by
  induction w with
  | zero =>
    intro a b ha hb _
    simp [Nat.pow_zero] at ha hb
    omega
  | succ w ih =>
    intro a b ha hb h
    simp only [hexChars, List.cons.injEq] at h
    obtain ⟨h1, h2⟩ := h
    have hda : a / 16 ^ w < 16 :=
      Nat.div_lt_of_lt_mul (by rw [Nat.pow_succ] at ha; omega)
    have hdb : b / 16 ^ w < 16 :=
      Nat.div_lt_of_lt_mul (by rw [Nat.pow_succ] at hb; omega)
    rw [Nat.mod_eq_of_lt hda, Nat.mod_eq_of_lt hdb] at h1
    have hdiv : a / 16 ^ w = b / 16 ^ w := hexDigit_inj hda hdb h1
    have hpos : 0 < 16 ^ w := Nat.pos_pow_of_pos w (by decide)
    have hmod : a % 16 ^ w = b % 16 ^ w :=
      ih _ _ (Nat.mod_lt _ hpos) (Nat.mod_lt _ hpos) h2
    calc a = 16 ^ w * (a / 16 ^ w) + a % 16 ^ w :=
          (Nat.div_add_mod a (16 ^ w)).symm
      _ = 16 ^ w * (b / 16 ^ w) + b % 16 ^ w := by rw [hdiv, hmod]
      _ = b := Nat.div_add_mod b (16 ^ w)

theorem setVersion4_lt (r : Nat) : setVersion4 r < 2 ^ 128 := by
  unfold setVersion4
  exact Nat.or_lt_two_pow
    (Nat.and_lt_two_pow _ (by decide))
    (by decide)

theorem uuid4hex_length (r : Nat) : (uuid4hex r).length = 32 :=
  hexChars_length 32 (setVersion4 r)

theorem uuid4hex_ne_empty (r : Nat) : uuid4hex r ≠ "" := by
  intro h
  have hl := uuid4hex_length r
  rw [h] at hl
  exact absurd hl (by decide)

theorem uuid4hex_all_hex (r : Nat) :
    ∀ c ∈ (uuid4hex r).data, isHexChar c = true :=
  hexChars_all_hex 32 (setVersion4 r)

theorem uuid4hex_inj {r1 r2 : Nat} (h : setVersion4 r1 ≠ setVersion4 r2) :
    uuid4hex r1 ≠ uuid4hex r2 := by
  intro he
  apply h
  have hl := congrArg String.data he
  have h16 : (16 : Nat) ^ 32 = 2 ^ 128 := by norm_num
  exact hexChars_inj 32 _ _ (h16 ▸ setVersion4_lt r1) (h16 ▸ setVersion4_lt r2) hl

/-! ## Round-trip helper lemmas -/

theorem message_dump_roundtrip (r : Nat) (m : Message) :
    Message.validate r m.dump = .ok m := by
  rcases m with ⟨i, t, c⟩
  cases t <;> rfl

theorem code_dump_roundtrip (c : Code) : Code.validate c.dump = .ok c := rfl

theorem response_dump_roundtrip (r : Response) :
    Response.validate r.dump = .ok r := rfl

theorem prompt_dump_roundtrip (p : Prompt) :
    Prompt.validate p.dump = .ok p := rfl

theorem validateMsgList_dump (rs : Nat → Nat) :
    ∀ (i : Nat) (ms : List Message),
    validateMsgList rs i (ms.map (fun m => Val.obj m.dump)) = .ok ms := by
  intro i ms
  induction ms generalizing i with
  | nil => rfl
  | cons m ms ih =>
    simp only [List.map_cons, validateMsgList, validateMsgElem,
      message_dump_roundtrip, ih]

theorem chat_dump_roundtrip (now : Nat) (rs : Nat → Nat) (c : Chat) :
    Chat.validate now rs c.dump = .ok c := by
  have hm : messagesField rs c.dump = .ok c.messages :=
    validateMsgList_dump rs 0 c.messages
  unfold Chat.validate
  rw [hm]
  rfl

theorem validateMsgList_instances (rs : Nat → Nat) :
    ∀ (i : Nat) (ms : List Message),
    validateMsgList rs i (ms.map Val.msg) = .ok ms := by
  intro i ms
  induction ms generalizing i with
  | nil => rfl
  | cons m ms ih =>
    simp only [List.map_cons, validateMsgList, validateMsgElem, ih]

/-! ## Error-shape helper lemmas -/

theorem mk5_err1 (m : Except (List FieldError) (List Message))
    (n : Except (List FieldError) String)
    (c : Except (List FieldError) Code) (t : Except (List FieldError) Nat)
    {l : List FieldError} {x : FieldError} (hx : x ∈ l) :
    ∃ errs, mk5 (.error l) m n c t = .error errs ∧ x ∈ errs := by
  cases m <;> cases n <;> cases c <;> cases t <;>
    exact ⟨_, rfl, List.mem_append_left _ (List.mem_append_left _
      (List.mem_append_left _ (List.mem_append_left _ hx)))⟩

theorem mk5_err4 (u : Except (List FieldError) String)
    (m : Except (List FieldError) (List Message))
    (n : Except (List FieldError) String) (t : Except (List FieldError) Nat)
    {l : List FieldError} {x : FieldError} (hx : x ∈ l) :
    ∃ errs, mk5 u m n (.error l) t = .error errs ∧ x ∈ errs := by
  cases u <;> cases m <;> cases n <;> cases t <;>
    exact ⟨_, rfl, List.mem_append_left _ (List.mem_append_right _ hx)⟩

theorem mk3_err_content (a : Except (List FieldError) String)
    (t : Except (List FieldError) MessageType)
    {l : List FieldError} {x : FieldError} (hx : x ∈ l) :
    ∃ errs, mk3 a (.error l) t = .error errs ∧ x ∈ errs := by
  cases a <;> cases t <;>
    exact ⟨_, rfl, List.mem_append_right _ hx⟩

theorem mk3_error_eq {a b : Except (List FieldError) String}
    {t : Except (List FieldError) MessageType} {errs : List FieldError}
    (h : mk3 a b t = .error errs) :
    errs = errsOf a ++ errsOf t ++ errsOf b := by
  cases a <;> cases t <;> cases b <;> simp_all [mk3, errsOf]

theorem strFieldD_not_str {fs : List (String × Val)} {k : String}
    (dflt : String) {v : Val} (h : getField fs k = some v)
    (hv : ∀ s, v ≠ Val.str s) :
    strFieldD fs k dflt = .error [⟨[k], "string_type"⟩] := by
  unfold strFieldD
  rw [h]
  cases v
  case str s => exact absurd rfl (hv s)
  all_goals rfl

theorem strFieldD_errs (fs : List (String × Val)) (k dflt : String) :
    (∃ s, strFieldD fs k dflt = .ok s) ∨
    strFieldD fs k dflt = .error [⟨[k], "string_type"⟩] := by
  unfold strFieldD
  cases h : getField fs k with
  | none => exact .inl ⟨dflt, rfl⟩
  | some v =>
    cases v
    case str s => exact .inl ⟨s, rfl⟩
    all_goals exact .inr rfl

theorem validateMessageType_errs (v : Val) :
    (∃ t, validateMessageType v = .ok t) ∨
    validateMessageType v = .error [⟨["type"], "enum"⟩] := by
  cases v
  case str s =>
    by_cases h1 : s = "ai"
    · exact .inl ⟨.AI, by simp [validateMessageType, h1]⟩
    · by_cases h2 : s = "user"
      · exact .inl ⟨.USER, by simp [validateMessageType, h1, h2]⟩
      · exact .inr (by simp [validateMessageType, h1, h2])
  all_goals exact .inr rfl

theorem typeFieldD_errs (fs : List (String × Val)) :
    (∃ t, typeFieldD fs = .ok t) ∨
    typeFieldD fs = .error [⟨["type"], "enum"⟩] := by
  unfold typeFieldD
  cases getField fs "type" with
  | none => exact .inl ⟨.USER, rfl⟩
  | some v => exact validateMessageType_errs v

theorem errsOf_strFieldD_kind {fs : List (String × Val)} {k dflt : String}
    {e : FieldError} (he : e ∈ errsOf (strFieldD fs k dflt)) :
    e.kind = "string_type" := by
  rcases strFieldD_errs fs k dflt with ⟨s, h⟩ | h <;> rw [h] at he
  · simp [errsOf] at he
  · simp only [errsOf, List.mem_singleton] at he
    subst he
    rfl

theorem errsOf_typeFieldD_kind {fs : List (String × Val)} {e : FieldError}
    (he : e ∈ errsOf (typeFieldD fs)) : e.kind = "enum" := by
  rcases typeFieldD_errs fs with ⟨t, h⟩ | h <;> rw [h] at he
  · simp [errsOf] at he
  · simp only [errsOf, List.mem_singleton] at he
    subst he
    rfl

/-! ## The claims -/

/-- C1: `Chat(userId="u1")` with no other arguments yields `messages = []`,
`name = "New Chat"`, `code = Code(html="", css="", js="")`, and `createdAt`
equal to the construction instant (`datetime.now()` is modelled as the
explicit instant `now`, so the tolerance is zero). -/
theorem chat_default_construction (now : Nat) (rs : Nat → Nat) :
    Chat.validate now rs [("userId", Val.str "u1")] =
      .ok ⟨"u1", [], "New Chat", ⟨"", "", ""⟩, now⟩ := rfl

/-- C2: every `Chat` construction that omits `userId` fails with a
validation failure whose error list names the missing field `userId`,
and no `Chat` value is produced (the result is `.error`, not `.ok`). -/
theorem chat_missing_userId (now : Nat) (rs : Nat → Nat)
    (fs : List (String × Val)) (h : getField fs "userId" = none) :
    ∃ errs, Chat.validate now rs fs = .error errs ∧
      FieldError.mk ["userId"] "missing" ∈ errs := by
  have hu : reqStrField fs "userId" = .error [⟨["userId"], "missing"⟩] := by
    unfold reqStrField
    rw [h]
  unfold Chat.validate
  rw [hu]
  exact mk5_err1 _ _ _ _ (List.mem_singleton_self _)

/-- C2 witness: `Chat()` with no arguments at all fails and the error
list contains the `missing` error located at `userId`. -/
theorem chat_missing_userId_witness :
    ∃ errs, Chat.validate 0 (fun _ => 0) [] = .error errs ∧
      FieldError.mk ["userId"] "missing" ∈ errs :=
  chat_missing_userId 0 (fun _ => 0) [] rfl

/-- C3: `Message()` with no arguments yields `type = USER`,
`content = ""`, and an `id` freshly generated by `uuid4().hex` on the
random draw `r`: a non-empty 32-character string over the lowercase
hexadecimal alphabet. -/
theorem message_default_construction (r : Nat) :
    Message.validate r [] = .ok ⟨uuid4hex r, .USER, ""⟩ ∧
    (uuid4hex r).length = 32 ∧ uuid4hex r ≠ "" ∧
    ∀ c ∈ (uuid4hex r).data, isHexChar c = true :=
  ⟨rfl, uuid4hex_length r, uuid4hex_ne_empty r, uuid4hex_all_hex r⟩

/-- C4: `MessageType` is a closed set of exactly the two variants, the
literal `"ai"` deserializes to `AI`, the literal `"user"` deserializes
to `USER`, and any other string fails with a non-empty validation
error. -/
theorem messageType_closed_deserialization :
    (∀ t : MessageType, t = .AI ∨ t = .USER) ∧
    validateMessageType (Val.str "ai") = .ok .AI ∧
    validateMessageType (Val.str "user") = .ok .USER ∧
    ∀ s : String, s ≠ "ai" → s ≠ "user" →
      ∃ errs, validateMessageType (Val.str s) = .error errs ∧ errs ≠ [] := by
  refine ⟨fun t => by cases t <;> simp, rfl, rfl, ?_⟩
  intro s h1 h2
  refine ⟨[⟨["type"], "enum"⟩], ?_, by simp⟩
  simp [validateMessageType, h1, h2]

/-- C4 witness: the out-of-set literal `"bot"` fails deserialization. -/
theorem messageType_closed_deserialization_witness :
    ∃ errs, validateMessageType (Val.str "bot") = .error errs ∧ errs ≠ [] :=
  messageType_closed_deserialization.2.2.2 "bot" (by decide) (by decide)

/-- C5: for every value of each of the five entities, serializing it
and then deserializing the result reconstructs the entity exactly
(all fields equal); the only caveat of the claim — an omitted `Message`
id being replaced at construction by a fresh fixed-length hexadecimal
value — does not arise here because serialization always emits the
`id` field. -/
theorem roundtrip_all :
    (∀ p : Prompt, Prompt.validate p.dump = .ok p) ∧
    (∀ (r : Nat) (m : Message), Message.validate r m.dump = .ok m) ∧
    (∀ c : Code, Code.validate c.dump = .ok c) ∧
    (∀ resp : Response, Response.validate resp.dump = .ok resp) ∧
    (∀ (now : Nat) (rs : Nat → Nat) (ch : Chat),
      Chat.validate now rs ch.dump = .ok ch) :=
  ⟨prompt_dump_roundtrip, message_dump_roundtrip, code_dump_roundtrip,
   response_dump_roundtrip, chat_dump_roundtrip⟩

/-- C6: `Code` and `Response` construction never fails when each field
is either a string or absent, with absent fields defaulting to `""`;
`Response(explanation="done")` yields empty `html`, `css`, `js` and
`explanation = "done"`; and a `Response` serves as a `Code` by
projecting the shared `html`, `css`, `js` fields unchanged. -/
theorem code_response_never_fail :
    (∀ oh oc oj : Option String,
      Code.validate (optEntry "html" oh ++ optEntry "css" oc ++
          optEntry "js" oj) =
        .ok ⟨oh.getD "", oc.getD "", oj.getD ""⟩) ∧
    (∀ oh oc oj oe : Option String,
      Response.validate (optEntry "html" oh ++ optEntry "css" oc ++
          optEntry "js" oj ++ optEntry "explanation" oe) =
        .ok ⟨oh.getD "", oc.getD "", oj.getD "", oe.getD ""⟩) ∧
    Response.validate [("explanation", Val.str "done")] =
      .ok ⟨"", "", "", "done"⟩ ∧
    (∀ resp : Response, resp.toCode.html = resp.html ∧
      resp.toCode.css = resp.css ∧ resp.toCode.js = resp.js) := by
  refine ⟨?_, ?_, rfl, fun resp => ⟨rfl, rfl, rfl⟩⟩
  · intro oh oc oj
    cases oh <;> cases oc <;> cases oj <;> rfl
  · intro oh oc oj oe
    cases oh <;> cases oc <;> cases oj <;> cases oe <;> rfl

/-- C7: supplying a non-string value for `content` makes `Message`
construction fail with a `string_type` validation error located at
`content`; and type-mismatch validation is the only error condition of
`Message` construction: every error it can produce is a `string_type`
or `enum` (type-mismatch) error — in particular there are no `missing`
errors, every field being defaulted. -/
theorem message_content_type_error :
    (∀ (r : Nat) (fs : List (String × Val)) (v : Val),
      getField fs "content" = some v → (∀ s, v ≠ Val.str s) →
      ∃ errs, Message.validate r fs = .error errs ∧
        FieldError.mk ["content"] "string_type" ∈ errs) ∧
    (∀ (r : Nat) (fs : List (String × Val)) (errs : List FieldError),
      Message.validate r fs = .error errs →
      ∀ e ∈ errs, e.kind = "string_type" ∨ e.kind = "enum") := by
  constructor
  · intro r fs v h hv
    have hc := strFieldD_not_str "" h hv
    unfold Message.validate
    rw [hc]
    exact mk3_err_content _ _ (List.mem_singleton_self _)
  · intro r fs errs h e he
    unfold Message.validate at h
    rw [mk3_error_eq h] at he
    rcases List.mem_append.mp he with he1 | he3
    · rcases List.mem_append.mp he1 with hid | hty
      · exact .inl (errsOf_strFieldD_kind hid)
      · exact .inr (errsOf_typeFieldD_kind hty)
    · exact .inl (errsOf_strFieldD_kind he3)

/-- C7 witness: `Message(content=5)` fails with the `string_type` error
at `content`, instantiating both conjuncts at `r = 0`. -/
theorem message_content_type_error_witness :
    ∃ errs, Message.validate 0 [("content", Val.nat 5)] = .error errs ∧
      FieldError.mk ["content"] "string_type" ∈ errs :=
  message_content_type_error.1 0 [("content", Val.nat 5)] (Val.nat 5) rfl
    (fun _ h => Val.noConfusion h)

/-- C8 counterexample: the claim that any two successive `Message`
constructions with no supplied identifier always produce distinct ids is
false on the code: `uuid4` draws 128 random bits, and when the two draws
coincide (here both `0`) the two ids are equal. -/
theorem message_ids_can_collide :
    ¬ (∀ (r1 r2 : Nat) (m1 m2 : Message),
        Message.validate r1 [] = .ok m1 → Message.validate r2 [] = .ok m2 →
        m1.id ≠ m2.id) := by
  intro h
  exact h 0 0 ⟨uuid4hex 0, .USER, ""⟩ ⟨uuid4hex 0, .USER, ""⟩ rfl rfl rfl

/-- C8 (amended): two successive `Message` constructions with no
supplied identifier produce distinct ids whenever the underlying
128-bit `uuid4` draws differ after version/variant bit-setting —
generation is collision-free exactly up to the randomness, not
absolutely. -/
theorem message_ids_distinct_of_distinct_draws (r1 r2 : Nat)
    (h : setVersion4 r1 ≠ setVersion4 r2) :
    ∀ m1 m2 : Message, Message.validate r1 [] = .ok m1 →
      Message.validate r2 [] = .ok m2 → m1.id ≠ m2.id := by
  intro m1 m2 h1 h2
  have e1 : (⟨uuid4hex r1, .USER, ""⟩ : Message) = m1 :=
    Except.ok.inj ((rfl :
      Message.validate r1 [] =
        .ok (⟨uuid4hex r1, .USER, ""⟩ : Message)).symm.trans h1)
  have e2 : (⟨uuid4hex r2, .USER, ""⟩ : Message) = m2 :=
    Except.ok.inj ((rfl :
      Message.validate r2 [] =
        .ok (⟨uuid4hex r2, .USER, ""⟩ : Message)).symm.trans h2)
  rw [← e1, ← e2]
  exact uuid4hex_inj h

/-- C8 witness: draws `0` and `1` differ after bit-setting, so the two
freshly generated ids differ. -/
theorem message_ids_distinct_witness :
    (⟨uuid4hex 0, .USER, ""⟩ : Message).id ≠
      (⟨uuid4hex 1, .USER, ""⟩ : Message).id :=
  message_ids_distinct_of_distinct_draws 0 1 (by decide)
    ⟨uuid4hex 0, .USER, ""⟩ ⟨uuid4hex 1, .USER, ""⟩ rfl rfl

/-- C9: constructing a `Chat` with `code` explicitly `None` fails with a
validation failure: the annotation is `code : Code` (a model-typed field
with a default factory, not `Optional`), so `None` is a `model_type`
error, the class docstring notwithstanding. -/
theorem chat_code_none_fails (now : Nat) (rs : Nat → Nat)
    (fs : List (String × Val)) (h : getField fs "code" = some Val.vnull) :
    ∃ errs, Chat.validate now rs fs = .error errs ∧
      FieldError.mk ["code"] "model_type" ∈ errs := by
  have hc : codeField fs = .error [⟨["code"], "model_type"⟩] := by
    unfold codeField
    rw [h]
  unfold Chat.validate
  rw [hc]
  exact mk5_err4 _ _ _ _ (List.mem_singleton_self _)

/-- C9 witness: `Chat(userId="u1", code=None)` fails with the
`model_type` error at `code`. -/
theorem chat_code_none_fails_witness :
    ∃ errs, Chat.validate 0 (fun _ => 0)
        [("userId", Val.str "u1"), ("code", Val.vnull)] = .error errs ∧
      FieldError.mk ["code"] "model_type" ∈ errs :=
  chat_code_none_fails 0 (fun _ => 0)
    [("userId", Val.str "u1"), ("code", Val.vnull)] rfl

/-- C10: `Chat` accepts an explicit `messages` argument; supplying a
list of `Message` instances yields a `Chat` whose `messages` equals the
supplied sequence in the same order (here together with `userId`, the
other fields taking their defaults). -/
theorem chat_explicit_messages (now : Nat) (rs : Nat → Nat) (u : String)
    (ms : List Message) :
    Chat.validate now rs
        [("userId", Val.str u), ("messages", Val.list (ms.map Val.msg))] =
      .ok ⟨u, ms, "New Chat", ⟨"", "", ""⟩, now⟩ := by
  have hm : messagesField rs
      [("userId", Val.str u), ("messages", Val.list (ms.map Val.msg))] =
        .ok ms :=
    validateMsgList_instances rs 0 ms
  unfold Chat.validate
  rw [hm]
  rfl

end ChatModel
